import Mathlib

/-!
Verification of the bydit retrieval/filter/action pipeline.

Shallow embedding of the Rust sources:
* `src/models.rs`   — `UnifiedItem`
* `src/reddit_ops.rs` — `fetch_user_items` (subreddit-list parsing, the six
  post-filter predicates, the seven comment-filter predicates, the paginated
  comment loop, normalization of raw posts/comments)
* `src/actions.rs`  — `handle_overwrite_action`, `handle_delete_action`,
  `handle_csv_export`, console printing
* `src/utils.rs`    — `escape_csv_field`
* `src/main.rs`     — the descending sort of the unified items (line 250)

Remote I/O (HTTP fetches, stdin, file writes) is modelled by explicit
oracles: a `RemoteSource` gives the response of each page fetch, a
`DeleteEnv` gives the confirmation line and per-request outcomes, and the
CSV writer is a buffer-accumulating state.  Rust `f64` timestamps/scores are
embedded as `Rat` (only order comparisons are performed on them; no NaN
arises in the modelled scenarios, matching the `partial_cmp ... unwrap_or
(Equal)` total order on the values actually compared).  `i32` is embedded as
`Int`; the `as i32` saturating-truncating cast is `f64ToI32`.
-/

/-- `UnifiedItem` from `src/models.rs`. -/
structure UnifiedItem where
  id : String
  item_type : String
  subreddit : String
  title : String
  content : String
  upvotes : Int
  num_comments : Int
  permalink : String
  created_utc : Rat
deriving DecidableEq, Repr

/-- Raw post record, the fields of `roux`'s submission data that
`fetch_user_items` reads (`src/reddit_ops.rs` lines 85–123). -/
structure RawPost where
  name : String
  subreddit : String
  title : String
  selftext : String
  ups : Rat
  num_comments : Int
  permalink : String
  created_utc : Rat
deriving DecidableEq, Repr

/-- Raw comment record, the fields of `roux`'s comment data that
`fetch_user_items` reads (`src/reddit_ops.rs` lines 212–269).  All fields
are optional in the remote JSON. -/
structure RawComment where
  name : Option String
  subreddit : Option String
  link_title : Option String
  body : Option String
  score : Option Int
  permalink : Option String
  created_utc : Option Rat
deriving DecidableEq, Repr

/-- Rust's saturating-truncating `as i32` cast applied to an `f64`,
for values embedded as `Rat`: truncate toward zero, clamp to `i32` range. -/
def f64ToI32 (x : Rat) : Int :=
  max (-(2 ^ 31)) (min (2 ^ 31 - 1) (x.num.tdiv x.den))

/-- Rust `str::to_lowercase`, embedded character-wise (the strings the
program compares are ASCII; `Char.toLower` agrees with Rust there). -/
def strToLower (s : String) : String :=
  String.mk (s.data.map Char.toLower)

/-- Rust `str::trim`: drop leading and trailing whitespace. -/
def strTrim (s : String) : String :=
  String.mk (((s.data.dropWhile Char.isWhitespace).reverse.dropWhile
    Char.isWhitespace).reverse)

/-- Comma-separated subreddit-list parsing from `src/reddit_ops.rs`
lines 45–57: split on `,`, trim, lowercase, drop empty entries. -/
def parseSubredditList (s : String) : List String :=
  ((s.splitOn ",").map (fun sr => strToLower (strTrim sr))).filter (fun sr => sr ≠ "")

/-- Rust `str::contains` (substring containment) for nonempty or empty
needles: an empty needle is always contained. -/
def strContainsSub (haystack needle : String) : Bool :=
  needle == "" || (haystack.splitOn needle).length > 1

/-- `include_match` for posts (`src/reddit_ops.rs` lines 89–91). -/
def postIncludeMatch (includeSubs : Option (List String)) (postSub : String) : Bool :=
  includeSubs.elim true (fun list => list.any (fun sr => sr == postSub))

/-- `exclude_match` for posts (`src/reddit_ops.rs` lines 94–96). -/
def postExcludeMatch (excludeSubs : Option (List String)) (postSub : String) : Bool :=
  excludeSubs.elim true (fun list => !list.any (fun sr => sr == postSub))

/-- `score_match` for posts (`src/reddit_ops.rs` line 98): `ups >= s as f64`. -/
def postScoreMatch (filter_score : Option Int) (ups : Rat) : Bool :=
  filter_score.elim true (fun s => decide (ups ≥ (s : Rat)))

/-- `max_score_match` for posts (`src/reddit_ops.rs` line 99): `ups < s as f64`. -/
def postMaxScoreMatch (filter_max_score : Option Int) (ups : Rat) : Bool :=
  filter_max_score.elim true (fun s => decide (ups < (s : Rat)))

/-- `min_age_match` (`src/reddit_ops.rs` line 104): `created_utc <= min_ts`. -/
def minAgeMatch (min_age_timestamp : Option Rat) (created : Rat) : Bool :=
  min_age_timestamp.elim true (fun ts => decide (created ≤ ts))

/-- `max_age_match` (`src/reddit_ops.rs` line 105): `created_utc >= max_ts`. -/
def maxAgeMatch (max_age_timestamp : Option Rat) (created : Rat) : Bool :=
  max_age_timestamp.elim true (fun ts => decide (created ≥ ts))

/-- The post filter closure of `fetch_user_items`
(`src/reddit_ops.rs` lines 85–108). -/
def postFilter (includeSubs excludeSubs : Option (List String))
    (filter_score filter_max_score : Option Int)
    (min_age_timestamp max_age_timestamp : Option Rat) (post : RawPost) : Bool :=
  let post_subreddit := strToLower post.subreddit
  postIncludeMatch includeSubs post_subreddit &&
  postExcludeMatch excludeSubs post_subreddit &&
  postScoreMatch filter_score post.ups &&
  postMaxScoreMatch filter_max_score post.ups &&
  minAgeMatch min_age_timestamp post.created_utc &&
  maxAgeMatch max_age_timestamp post.created_utc

/-- `include_match` for comments (`src/reddit_ops.rs` lines 218–222): an
absent subreddit never matches an include list. -/
def commentIncludeMatch (includeSubs : Option (List String))
    (commentSub : Option String) : Bool :=
  includeSubs.elim true (fun list =>
    commentSub.elim false (fun cs => list.any (fun sr => sr == cs)))

/-- `exclude_match` for comments (`src/reddit_ops.rs` lines 225–229): with
an exclude list configured, an absent subreddit yields `false` (the comment
is dropped). -/
def commentExcludeMatch (excludeSubs : Option (List String))
    (commentSub : Option String) : Bool :=
  excludeSubs.elim true (fun list =>
    commentSub.elim false (fun cs => !list.any (fun sr => sr == cs)))

/-- `score_match` for comments (`src/reddit_ops.rs` lines 231–233): an
absent score passes. -/
def commentScoreMatch (filter_score : Option Int) (score : Option Int) : Bool :=
  filter_score.elim true (fun sf => score.elim true (fun sc => decide (sc ≥ sf)))

/-- `max_score_match` for comments (`src/reddit_ops.rs` lines 234–236): an
absent score passes. -/
def commentMaxScoreMatch (filter_max_score : Option Int) (score : Option Int) : Bool :=
  filter_max_score.elim true (fun sf => score.elim true (fun sc => decide (sc < sf)))

/-- `older_than_match` for comments (`src/reddit_ops.rs` lines 239–241). -/
def commentMinAgeMatch (min_age_timestamp : Option Rat) (created : Option Rat) : Bool :=
  min_age_timestamp.elim true (fun ts => created.elim true (fun cr => decide (cr ≤ ts)))

/-- `newer_than_match` for comments (`src/reddit_ops.rs` lines 242–244). -/
def commentMaxAgeMatch (max_age_timestamp : Option Rat) (created : Option Rat) : Bool :=
  max_age_timestamp.elim true (fun ts => created.elim true (fun cr => decide (cr ≥ ts)))

/-- `post_title_match` for comments (`src/reddit_ops.rs` lines 247–251):
case-insensitive substring match against the parent post's title; an absent
title never matches a configured filter. -/
def commentPostTitleMatch (filter_post_title : Option String)
    (link_title : Option String) : Bool :=
  filter_post_title.elim true (fun ft =>
    link_title.elim false (fun lt => strContainsSub (strToLower lt) (strToLower ft)))

/-- The comment filter closure of `fetch_user_items`
(`src/reddit_ops.rs` lines 212–254). -/
def commentFilter (includeSubs excludeSubs : Option (List String))
    (filter_score filter_max_score : Option Int)
    (min_age_timestamp max_age_timestamp : Option Rat)
    (filter_post_title : Option String) (c : RawComment) : Bool :=
  let comment_subreddit := c.subreddit.map strToLower
  commentIncludeMatch includeSubs comment_subreddit &&
  commentExcludeMatch excludeSubs comment_subreddit &&
  commentScoreMatch filter_score c.score &&
  commentMaxScoreMatch filter_max_score c.score &&
  commentMinAgeMatch min_age_timestamp c.created_utc &&
  commentMaxAgeMatch max_age_timestamp c.created_utc &&
  commentPostTitleMatch filter_post_title c.link_title

/-- Post normalization (`src/reddit_ops.rs` lines 113–123). -/
def normalizePost (post_data : RawPost) : UnifiedItem :=
  { id := post_data.name
    item_type := "Post"
    subreddit := post_data.subreddit
    title := post_data.title
    content := post_data.selftext
    upvotes := f64ToI32 post_data.ups
    num_comments := post_data.num_comments
    permalink := post_data.permalink
    created_utc := post_data.created_utc }

/-- Comment normalization (`src/reddit_ops.rs` lines 259–269): absent fields
default to the empty string / `0` / `0.0`. -/
def normalizeComment (comment_data : RawComment) : UnifiedItem :=
  { id := comment_data.name.getD ""
    item_type := "Comment"
    subreddit := comment_data.subreddit.getD ""
    title := comment_data.link_title.getD ""
    content := comment_data.body.getD ""
    upvotes := comment_data.score.getD 0
    num_comments := 0
    permalink := comment_data.permalink.getD ""
    created_utc := comment_data.created_utc.getD 0 }

/-- Outcome of one posts fetch (`src/reddit_ops.rs` lines 70–79): either
the decoded children, a transport failure of the GET, or a JSON decode
failure. -/
inductive PostsResult where
  | ok (children : List RawPost)
  | fetchErr
  | decodeErr
deriving DecidableEq, Repr

/-- Outcome of one comment-page fetch (`src/reddit_ops.rs` lines 163–171):
the decoded children and the returned `after` cursor, or a failure. -/
inductive PageResult where
  | ok (children : List RawComment) (after : Option String)
  | fetchErr
  | decodeErr
deriving DecidableEq, Repr

/-- The errors with which `fetch_user_items` aborts (the `return Err(...)`
and `?` sites in `src/reddit_ops.rs`). -/
inductive RetrievalError where
  | postsFetch
  | postsDecode
  | commentsFetch (page : Nat)
  | commentsDecode (page : Nat)
deriving DecidableEq, Repr

/-- Result of the comment pagination loop: the loop either decides to stop
(`finished`, with the accumulated raw comments and the number of pages
fetched), aborts on a page failure (`failed`), or — a model artifact — runs
out of fuel before the loop itself decides anything (`runningOut`). -/
inductive LoopOutcome where
  | finished (raw : List RawComment) (pagesFetched : Nat)
  | failed (e : RetrievalError) (pagesFetched : Nat)
  | runningOut
deriving DecidableEq, Repr

/-- One remote session: the posts response and, for each 1-based page
number (the loop's `page_count`), the comment-page response.  Indexing by
page number models a synthetic paged source. -/
structure RemoteSource where
  postsResp : PostsResult
  commentPages : Nat → PageResult

/-- The comment pagination loop of `fetch_user_items`
(`src/reddit_ops.rs` lines 147–201).  `pageCount` is the value of
`page_count` before the iteration (incremented at the loop head), `acc` the
accumulated raw comments.  Fuel bounds the number of iterations the model
will unfold; the Rust loop has no such bound. -/
def commentLoopAux (source : Nat → PageResult) : Nat → Nat → List RawComment → LoopOutcome
  | 0, _, _ => .runningOut
  | fuel + 1, pageCount, acc =>
    let page := pageCount + 1
    match source page with
    | .fetchErr => .failed (.commentsFetch page) page
    | .decodeErr => .failed (.commentsDecode page) page
    | .ok children after =>
      let acc2 := acc ++ children
      if after.isNone then .finished acc2 page
      else if children.length == 0 && decide (page > 1) then .finished acc2 page
      else commentLoopAux source fuel page acc2

/-- The comment loop started with `after_token = None`, `page_count = 0`,
empty accumulator (`src/reddit_ops.rs` lines 143–145). -/
def commentLoop (source : Nat → PageResult) (fuel : Nat) : LoopOutcome :=
  commentLoopAux source fuel 0 []

/-- `fetch_user_items` (`src/reddit_ops.rs` lines 28–279) over a modelled
remote source.  Returns `none` only when the loop fuel runs out (a model
artifact); otherwise `some` of the function's `Result`. -/
def fetch_user_items (src : RemoteSource)
    (do_fetch_posts do_fetch_comments : Bool)
    (filter_subreddit exclude_subreddit : Option String)
    (filter_score filter_max_score : Option Int)
    (min_age_timestamp max_age_timestamp : Option Rat)
    (filter_post_title : Option String) (fuel : Nat) :
    Option (Except RetrievalError (List UnifiedItem)) :=
  let include_subreddits := filter_subreddit.map parseSubredditList
  let exclude_subreddits := exclude_subreddit.map parseSubredditList
  let postsStep : Except RetrievalError (List UnifiedItem) :=
    if do_fetch_posts then
      match src.postsResp with
      | .fetchErr => .error .postsFetch
      | .decodeErr => .error .postsDecode
      | .ok children =>
        .ok ((children.filter (postFilter include_subreddits exclude_subreddits
          filter_score filter_max_score min_age_timestamp max_age_timestamp)).map
          normalizePost)
    else .ok []
  match postsStep with
  | .error e => some (.error e)
  | .ok postItems =>
    if do_fetch_comments then
      match commentLoop src.commentPages fuel with
      | .runningOut => none
      | .failed e _ => some (.error e)
      | .finished raw _ =>
        let commentItems :=
          if raw.isEmpty then []
          else (raw.filter (commentFilter include_subreddits exclude_subreddits
            filter_score filter_max_score min_age_timestamp max_age_timestamp
            filter_post_title)).map normalizeComment
        some (.ok (postItems ++ commentItems))
    else some (.ok postItems)

/-- The items a caller actually receives from `fetch_user_items`: the list
on success, nothing on an error (or fuel exhaustion of the model). -/
def resultItems : Option (Except RetrievalError (List UnifiedItem)) → List UnifiedItem
  | some (.ok l) => l
  | _ => []

/-- The comparator of the caller's sort (`src/main.rs` line 250), as a
relation: `a` sorts before `b` when `b.created_utc ≤ a.created_utc`
(descending, i.e. newest first). -/
def itemNewerEq (a b : UnifiedItem) : Prop := b.created_utc ≤ a.created_utc

instance : DecidableRel itemNewerEq :=
  fun a b => inferInstanceAs (Decidable (b.created_utc ≤ a.created_utc))

instance : IsTotal UnifiedItem itemNewerEq :=
  ⟨fun a b => le_total b.created_utc a.created_utc⟩

instance : IsTrans UnifiedItem itemNewerEq :=
  ⟨fun _ _ _ h1 h2 => le_trans h2 h1⟩

/-- The caller's stable descending sort of the unified items
(`src/main.rs` line 250): `sort_by(|a, b|
b.created_utc.partial_cmp(&a.created_utc).unwrap_or(Equal))`.  Rust's
`sort_by` is a stable sort; `List.insertionSort` is stable with the same
comparator. -/
def sortItemsDesc (l : List UnifiedItem) : List UnifiedItem :=
  List.insertionSort itemNewerEq l

/-! ### Overwrite action (`src/actions.rs` lines 9–52)

The per-item `reddit.edit` outcome is an oracle `editOk : Nat → Bool`
indexed by the item's position in the batch.  The Rust function mutates
`items` in place and prints a success/fail summary; the model returns the
mutated list together with the two counters. -/

/-- The `for item in items.iter_mut()` loop of `handle_overwrite_action`
(`src/actions.rs` lines 21–45): on a successful edit the item's `content`
is set to the overwrite text and the success counter bumps, on a failed
edit the item is left untouched and the fail counter bumps. -/
def overwriteLoop (editOk : Nat → Bool) (overwrite_text : String) :
    List UnifiedItem → Nat → (List UnifiedItem × Nat × Nat)
  | [], _ => ([], 0, 0)
  | item :: rest, idx =>
    let r := overwriteLoop editOk overwrite_text rest (idx + 1)
    if editOk idx then ({ item with content := overwrite_text } :: r.1, r.2.1 + 1, r.2.2)
    else (item :: r.1, r.2.1, r.2.2 + 1)

/-- `handle_overwrite_action` (`src/actions.rs` lines 9–52): the mutated
item list, `overwrite_success_count` and `overwrite_fail_count`. -/
def handle_overwrite_action (editOk : Nat → Bool) (items : List UnifiedItem)
    (overwrite_text : String) : List UnifiedItem × Nat × Nat :=
  overwriteLoop editOk overwrite_text items 0

/-! ### Delete action (`src/actions.rs` lines 54–144) -/

/-- Outcome of one delete POST (`src/actions.rs` lines 99–133): success
status, non-success API status, or a transport error of the send. -/
inductive DeleteOutcome where
  | success
  | apiError
  | sendError
deriving DecidableEq, Repr

/-- The external world of `handle_delete_action`: the line stdin yields at
the confirmation prompt, the session's access token, and the outcome of
the delete request for the item at each batch position. -/
structure DeleteEnv where
  confirmationLine : String
  accessToken : Option String
  outcome : Nat → DeleteOutcome

/-- Observable run of `handle_delete_action`: the returned
`Result<usize, _>` (deleted count, or the fatal missing-token error),
whether a confirmation prompt was shown, and the ids of the delete
requests issued, in order. -/
structure DeleteRun where
  result : Except String Nat
  promptShown : Bool
  deleteRequests : List String
deriving Repr

/-- The deletion loop (`src/actions.rs` lines 87–134): each iteration
first requires the access token (aborting the whole function via `?` when
it is `None`), then issues the delete request; API and transport errors
are counted as failed without stopping the loop. -/
def deleteLoop (env : DeleteEnv) :
    List UnifiedItem → Nat → Nat → Nat → List String → (List String × Except String Nat)
  | [], _, deleted, _, reqs => (reqs.reverse, .ok deleted)
  | item :: rest, idx, deleted, failed, reqs =>
    match env.accessToken with
    | none =>
      (reqs.reverse,
        .error "Access token is None after successful login, cannot proceed with deletion.")
    | some _ =>
      match env.outcome idx with
      | .success => deleteLoop env rest (idx + 1) (deleted + 1) failed (item.id :: reqs)
      | .apiError => deleteLoop env rest (idx + 1) deleted (failed + 1) (item.id :: reqs)
      | .sendError => deleteLoop env rest (idx + 1) deleted (failed + 1) (item.id :: reqs)

/-- `handle_delete_action` (`src/actions.rs` lines 54–144): an empty batch
short-circuits to `Ok(0)` with no prompt; otherwise, unless
`skip_confirmation`, one prompt is shown and the batch proceeds only when
the input line, trimmed and lowercased, equals `"yes"`; an unconfirmed
batch returns `Ok(0)` with no delete request issued. -/
def handle_delete_action (env : DeleteEnv) (items_to_delete : List UnifiedItem)
    (skip_confirmation : Bool) : DeleteRun :=
  if items_to_delete.isEmpty then
    { result := .ok 0, promptShown := false, deleteRequests := [] }
  else
    let confirmed_to_delete :=
      skip_confirmation || (strToLower (strTrim env.confirmationLine) == "yes")
    if confirmed_to_delete then
      let r := deleteLoop env items_to_delete 0 0 0 []
      { result := r.2, promptShown := !skip_confirmation, deleteRequests := r.1 }
    else
      { result := .ok 0, promptShown := true, deleteRequests := [] }

/-! ### CSV export (`src/actions.rs` lines 146–186)

The `csv::Writer` is modelled as a buffer attached to a path; each
`write_record` call appends one serialized record.  The `csv` crate's
default quoting (`QuoteStyle::Necessary`) quotes a field exactly when it
contains the delimiter, the quote character, or a record terminator, and
doubles embedded quotes. -/

/-- Double every double-quote character (the `csv` writer's in-quote
escaping). -/
def doubleQuotes : List Char → List Char
  | [] => []
  | c :: rest => if c = '"' then '"' :: '"' :: doubleQuotes rest else c :: doubleQuotes rest

/-- Whether the `csv` writer must quote a field. -/
def csvNeedsQuoting (f : String) : Bool :=
  f.data.any (fun c => c == ',' || c == '"' || c == '\n' || c == '\r')

/-- Serialize one field per the `csv` crate's default quoting. -/
def csvField (f : String) : String :=
  if csvNeedsQuoting f then "\"" ++ String.mk (doubleQuotes f.data) ++ "\"" else f

/-- Serialize one record: comma-joined fields plus the `\n` terminator. -/
def csvRecord (fields : List String) : String :=
  String.intercalate "," (fields.map csvField) ++ "\n"

/-- The modelled `csv::Writer`: its target path and the bytes written. -/
structure CsvWriter where
  path : String
  buffer : String
deriving Repr

/-- `csv::Writer::from_path` — a fresh writer with an empty buffer. -/
def csvWriterFromPath (p : String) : CsvWriter :=
  { path := p, buffer := "" }

/-- `writer.write_record(fields)` — append one serialized record. -/
def csvWriteRecord (w : CsvWriter) (fields : List String) : CsvWriter :=
  { w with buffer := w.buffer ++ csvRecord fields }

/-- The header record of `handle_csv_export` (`src/actions.rs`
lines 156–165). -/
def csvHeaderFields : List String :=
  ["Type", "Subreddit", "Title", "Content", "Upvotes", "NumComments",
   "Permalink", "TimestampUTC"]

/-- The per-item record of `handle_csv_export` (`src/actions.rs`
lines 167–179): `r/`-prefixed non-empty subreddit and absolute permalink
URL. -/
def csvRowFields (item : UnifiedItem) : List String :=
  let subredditPref := if item.subreddit.isEmpty then "" else "r/"
  [item.item_type,
   subredditPref ++ item.subreddit,
   item.title,
   item.content,
   toString item.upvotes,
   toString item.num_comments,
   "https://reddit.com" ++ item.permalink,
   toString item.created_utc]

/-- `handle_csv_export` (`src/actions.rs` lines 146–186): open a writer at
the path, write the header record, then one record per item. -/
def handle_csv_export (items : List UnifiedItem) (file_path : String) : CsvWriter :=
  let writer := csvWriterFromPath file_path
  let writer := csvWriteRecord writer csvHeaderFields
  items.foldl (fun w item => csvWriteRecord w (csvRowFields item)) writer

/-- The concatenation of the serialized per-item records, in item order. -/
def csvBody : List UnifiedItem → String
  | [] => ""
  | it :: rest => csvRecord (csvRowFields it) ++ csvBody rest

/-! ### Console escaping (`src/utils.rs` lines 42–48) -/

/-- Rust `str::replace` (leftmost, non-overlapping, no rescan of the
replacement), on character lists, with fuel; the fuel is instantiated with
the input length, which suffices for the nonempty patterns used here. -/
def rustReplaceAux (pat repl : List Char) : Nat → List Char → List Char
  | 0, s => s
  | _ + 1, [] => []
  | fuel + 1, c :: rest =>
    if pat.isPrefixOf (c :: rest) then
      repl ++ rustReplaceAux pat repl fuel (List.drop pat.length (c :: rest))
    else
      c :: rustReplaceAux pat repl fuel rest

/-- Rust `str::replace` on character lists. -/
def rustReplace (pat repl s : List Char) : List Char :=
  rustReplaceAux pat repl s.length s

/-- `escape_csv_field` (`src/utils.rs` lines 42–48): the four sequential
replacements `\r\n → \n`, `\n → \n`, `\r → \n` (each to the literal
two-character backslash-n) and `" → ""`. -/
def escape_csv_field (field : String) : String :=
  String.mk (rustReplace ['"'] ['"', '"']
    (rustReplace ['\r'] ['\\', 'n']
      (rustReplace ['\n'] ['\\', 'n']
        (rustReplace ['\r', '\n'] ['\\', 'n'] field.data))))

/-- Modelled from the spec: per-character escape of a single character that
is not part of a `\r\n` pair — line endings become literal backslash-n,
double quotes are doubled, all else passes through. -/
def escBase (c : Char) : List Char :=
  if c = '\n' then ['\\', 'n']
  else if c = '\r' then ['\\', 'n']
  else if c = '"' then ['"', '"']
  else [c]

/-- Modelled from the spec (§4.4): a one-pass scanner that replaces each
line-ending variant (`\r\n`, `\n`, `\r`) with the literal two-character
sequence backslash-n and doubles every embedded double quote.  Used as the
specification side of the refinement proof for `escape_csv_field`. -/
def escSpecChars : List Char → List Char
  | [] => []
  | [c] => escBase c
  | c1 :: c2 :: rest =>
    if c1 = '\r' ∧ c2 = '\n' then '\\' :: 'n' :: escSpecChars rest
    else escBase c1 ++ escSpecChars (c2 :: rest)

/-- Single-character replacement as a one-pass scanner (proof vehicle for
the single-character `str::replace` calls). -/
def repChar (p : Char) (repl : List Char) : List Char → List Char
  | [] => []
  | c :: rest => (if c = p then repl else [c]) ++ repChar p repl rest

/-- The `\r\n` replacement as a one-pass scanner (proof vehicle for the
two-character `str::replace` call). -/
def repCRLFn : List Char → List Char
  | [] => []
  | [c] => [c]
  | c1 :: c2 :: rest =>
    if c1 = '\r' ∧ c2 = '\n' then '\\' :: 'n' :: repCRLFn rest
    else c1 :: repCRLFn (c2 :: rest)

/-! ### Concrete scenario data for the testable properties -/

/-- A sample unified item. -/
def sampleItem (id : String) (created : Rat) : UnifiedItem :=
  { id := id, item_type := "Post", subreddit := "sub", title := "t", content := "orig",
    upvotes := 1, num_comments := 0, permalink := "/p", created_utc := created }

/-- Synthetic paged source whose first page is empty but carries a cursor,
and whose second page is empty with no cursor. -/
def c2source : Nat → PageResult :=
  fun n => if n = 1 then .ok [] (some "t") else .ok [] none

/-- A raw post that passes the empty filter set. -/
def c3post : RawPost :=
  { name := "t3_a", subreddit := "rust", title := "hello", selftext := "body",
    ups := 3, num_comments := 0, permalink := "/r/rust/1", created_utc := 100 }

/-- Remote source whose posts fetch succeeds with one post and whose first
comment page fetch fails. -/
def c3src : RemoteSource :=
  { postsResp := .ok [c3post], commentPages := fun _ => .fetchErr }

/-- A one-element deletion batch. -/
def c4item : UnifiedItem := sampleItem "t1_a" 5

/-- Delete environment whose confirmation line is `" yes"` (whitespace
before an otherwise-exact `yes`) and whose requests all succeed. -/
def c4envSpacedYes : DeleteEnv :=
  { confirmationLine := " yes", accessToken := some "tok", outcome := fun _ => .success }

/-- Delete environment whose confirmation line is `"no"`. -/
def c4envNo : DeleteEnv :=
  { confirmationLine := "no", accessToken := some "tok", outcome := fun _ => .success }

/-- Overwrite scenario: item A (index 0). -/
def c5itemA : UnifiedItem := sampleItem "t3_a" 10

/-- Overwrite scenario: item B (index 1). -/
def c5itemB : UnifiedItem := sampleItem "t1_b" 20

/-- Edit oracle: item A's edit succeeds, item B's fails. -/
def c5editOk : Nat → Bool := fun i => i == 0

/-- Score-scenario post with score 5. -/
def c6postA : RawPost :=
  { name := "t3_a", subreddit := "sub", title := "A", selftext := "",
    ups := 5, num_comments := 0, permalink := "/a", created_utc := 100 }

/-- Score-scenario post with score 12. -/
def c6postB : RawPost :=
  { name := "t3_b", subreddit := "sub", title := "B", selftext := "",
    ups := 12, num_comments := 0, permalink := "/b", created_utc := 250 }

/-- Score-scenario post with score 20. -/
def c6postC : RawPost :=
  { name := "t3_c", subreddit := "sub", title := "C", selftext := "",
    ups := 20, num_comments := 0, permalink := "/c", created_utc := 300 }

/-- Remote source serving the three score-scenario posts. -/
def c6src : RemoteSource :=
  { postsResp := .ok [c6postA, c6postB, c6postC], commentPages := fun _ => .ok [] none }

/-- A raw comment whose score field is absent. -/
def c10comment : RawComment :=
  { name := some "t1_x", subreddit := some "sub", link_title := some "T",
    body := some "b", score := none, permalink := some "/c", created_utc := some 50 }

/-- Remote source serving one comment page holding only `c10comment`. -/
def c10src : RemoteSource :=
  { postsResp := .ok [], commentPages := fun _ => .ok [c10comment] none }

/-! ## Theorems -/

/-- C1: with the age criteria configured, the post filter passes exactly
when `created_utc ≤ min_age_timestamp` and `created_utc ≥
max_age_timestamp`; a post whose `created_utc` equals the min-age bound
passes the min-age filter, one whose `created_utc` equals the max-age
bound passes the max-age filter, and the same inclusive boundaries hold
for comments (with a present `created_utc`). -/
theorem age_boundary_filters :
    (∀ (post : RawPost) (t a b : Rat),
      postFilter none none none none (some a) (some b) { post with created_utc := t } =
        (decide (t ≤ a) && decide (t ≥ b)))
    ∧ (∀ (post : RawPost) (ts : Rat),
      postFilter none none none none (some ts) none { post with created_utc := ts } = true)
    ∧ (∀ (post : RawPost) (ts : Rat),
      postFilter none none none none none (some ts) { post with created_utc := ts } = true)
    ∧ (∀ (c : RawComment) (t a b : Rat),
      commentFilter none none none none (some a) (some b) none
        { c with created_utc := some t } = (decide (t ≤ a) && decide (t ≥ b)))
    ∧ (∀ (c : RawComment) (ts : Rat),
      commentFilter none none none none (some ts) (some ts) none
        { c with created_utc := some ts } = true) := by
  refine ⟨?_, ?_, ?_, ?_, ?_⟩ <;> intros <;>
    simp [postFilter, commentFilter, postIncludeMatch, postExcludeMatch, postScoreMatch,
      postMaxScoreMatch, minAgeMatch, maxAgeMatch, commentIncludeMatch, commentExcludeMatch,
      commentScoreMatch, commentMaxScoreMatch, commentMinAgeMatch, commentMaxAgeMatch,
      commentPostTitleMatch]

/-- C2: an iteration of the comment pagination loop whose page fetch
succeeds stops exactly when the returned cursor is absent or when the page
is empty and its number exceeds 1; in particular an empty first page with
a present cursor does not stop the loop but leads to another fetch, as the
concrete two-page source `c2source` shows (two pages fetched). -/
theorem comment_pagination_termination :
    (∀ (source : Nat → PageResult) (fuel pageCount : Nat)
        (acc children : List RawComment) (after : Option String),
      source (pageCount + 1) = PageResult.ok children after →
      commentLoopAux source (fuel + 1) pageCount acc =
        (if after = none ∨ (children = [] ∧ pageCount + 1 > 1)
         then LoopOutcome.finished (acc ++ children) (pageCount + 1)
         else commentLoopAux source fuel (pageCount + 1) (acc ++ children)))
    ∧ (∀ (source : Nat → PageResult) (fuel : Nat) (acc : List RawComment) (t : String),
      source 1 = PageResult.ok [] (some t) →
      commentLoopAux source (fuel + 1) 0 acc = commentLoopAux source fuel 1 acc)
    ∧ commentLoop c2source 5 = LoopOutcome.finished [] 2 := by
  refine ⟨?_, ?_, ?_⟩
  · intro source fuel pageCount acc children after h
    simp only [commentLoopAux, h]
    rcases after with _ | tok
    · simp
    · have hns : Option.isNone (some tok) = false := rfl
      simp only [hns, Bool.false_eq_true, if_false]
      by_cases hc : children = [] ∧ pageCount + 1 > 1
      · rcases hc with ⟨hc1, hc2⟩
        subst hc1
        simp [hc2]
      · have : (children.length == 0 && decide (pageCount + 1 > 1)) = false := by
          rcases Decidable.not_and_iff_or_not.mp hc with h1 | h2
          · simp [List.length_eq_zero, h1]
          · simp [h2]
        simp only [this, Bool.false_eq_true, if_false]
        rw [if_neg]
        simpa using hc
  · intro source fuel acc t h
    simp [commentLoopAux, h]
  · rfl

/-- Witness for C2: the step characterization and the
continue-on-empty-first-page fact instantiated on the concrete two-page
source. -/
theorem comment_pagination_termination_witness :
    commentLoopAux c2source 4 0 [] = commentLoopAux c2source 3 1 []
    ∧ commentLoop c2source 5 = LoopOutcome.finished [] 2 := by
  constructor
  · have h := comment_pagination_termination.1 c2source 3 0 [] [] (some "t") rfl
    simpa using h
  · exact comment_pagination_termination.2.2

/-- Counterexample for C3: with a remote source whose posts fetch succeeds
(one post, passing the empty filter set) and whose first comment page
fetch fails, `fetch_user_items` returns only the error — the caller
receives an empty item set, so the posts already collected in the same
call are not preserved in what the caller receives, contrary to the
claim. -/
theorem page_fetch_failure_discards_posts_cex :
    fetch_user_items c3src true true none none none none none none none 5 =
      some (Except.error (RetrievalError.commentsFetch 1))
    ∧ resultItems (fetch_user_items c3src true true none none none none none none none 5) = []
    ∧ postFilter none none none none none none c3post = true := by
  refine ⟨rfl, rfl, rfl⟩

/-- C3 (amended): if any comment page fetch (or its JSON decode) fails,
`fetch_user_items` aborts with that `RetrievalError`; the caller sees no
partial comment set and also does not receive the posts collected in the
same call — the entire result is the error. -/
theorem page_fetch_failure_aborts_all
    (src : RemoteSource) (ps : List RawPost) (e : RetrievalError) (page fuel : Nat)
    (fsub xsub : Option String) (fs fms : Option Int) (ma mb : Option Rat)
    (fpt : Option String)
    (hposts : src.postsResp = PostsResult.ok ps)
    (hloop : commentLoop src.commentPages fuel = LoopOutcome.failed e page) :
    fetch_user_items src true true fsub xsub fs fms ma mb fpt fuel =
      some (Except.error e) := by
  simp [fetch_user_items, hposts, hloop]

/-- Witness for C3's amended theorem: instantiated on the concrete source
whose first comment page fetch fails after a successful posts fetch. -/
theorem page_fetch_failure_aborts_all_witness :
    fetch_user_items c3src true true none none none none none none none 5 =
      some (Except.error (RetrievalError.commentsFetch 1)) :=
  page_fetch_failure_aborts_all c3src [c3post] (RetrievalError.commentsFetch 1) 1 5
    none none none none none none none rfl rfl

/-- Counterexample for C4: the confirmation line `" yes"` is not a
case-insensitive `"yes"` (its lowercasing differs from `"yes"`), yet
because the code trims the line before comparing, a one-item batch with
`skip_confirmation = false` is deleted — `deleted_count = 1` and one
delete request is issued, contrary to the claim's `deleted_count = 0` and
zero requests. -/
theorem delete_trimmed_yes_cex :
    (strToLower " yes" == "yes") = false
    ∧ (strToLower (strTrim " yes") == "yes") = true
    ∧ (handle_delete_action c4envSpacedYes [c4item] false).result = Except.ok 1
    ∧ (handle_delete_action c4envSpacedYes [c4item] false).deleteRequests = ["t1_a"] := by
  refine ⟨rfl, rfl, rfl, rfl⟩

/-- C4 (amended): for every non-empty batch with `skip_confirmation =
false`, if the confirmation input line — after trimming surrounding
whitespace — is anything other than a case-insensitive `"yes"`, delete
returns `deleted_count = 0` and issues zero delete requests; an empty
batch returns 0 without any confirmation prompt. -/
theorem delete_non_yes_aborts :
    (∀ (env : DeleteEnv) (items : List UnifiedItem),
      items ≠ [] → strToLower (strTrim env.confirmationLine) ≠ "yes" →
      handle_delete_action env items false =
        { result := Except.ok 0, promptShown := true, deleteRequests := [] })
    ∧ (∀ (env : DeleteEnv) (skip : Bool),
      handle_delete_action env [] skip =
        { result := Except.ok 0, promptShown := false, deleteRequests := [] }) := by
  constructor
  · intro env items hne hno
    have hbeq : (strToLower (strTrim env.confirmationLine) == "yes") = false := by
      simpa using hno
    simp [handle_delete_action, hne, hbeq]
  · intro env skip
    simp [handle_delete_action]

/-- Witness for C4's amended theorem: a `"no"` line on a one-item batch,
and the empty batch, instantiated concretely. -/
theorem delete_non_yes_aborts_witness :
    handle_delete_action c4envNo [c4item] false =
      { result := Except.ok 0, promptShown := true, deleteRequests := [] }
    ∧ handle_delete_action c4envNo [] false =
      { result := Except.ok 0, promptShown := false, deleteRequests := [] } :=
  ⟨delete_non_yes_aborts.1 c4envNo [c4item] (by simp) (by decide),
   delete_non_yes_aborts.2 c4envNo false⟩

/-- The filtered-in and filtered-out parts of a list partition its
length. -/
theorem length_filter_partition {α : Type} (p : α → Bool) :
    ∀ l : List α, (l.filter p).length + (l.filter (fun x => !p x)).length = l.length := by
  intro l
  induction l with
  | nil => rfl
  | cons x xs ih =>
    by_cases hx : p x = true <;> simp [List.filter_cons, hx, ← ih] <;> omega

/-- The overwrite loop, started at any index, maps each item through its
edit outcome and counts successes and failures. -/
theorem overwriteLoop_eq (editOk : Nat → Bool) (text : String) :
    ∀ (l : List UnifiedItem) (idx : Nat),
      overwriteLoop editOk text l idx =
        ((List.enumFrom idx l).map
          (fun p => if editOk p.1 then { p.2 with content := text } else p.2),
         ((List.enumFrom idx l).filter (fun p => editOk p.1)).length,
         ((List.enumFrom idx l).filter (fun p => !editOk p.1)).length) := by
  intro l
  induction l with
  | nil => intro idx; rfl
  | cons x xs ih =>
    intro idx
    by_cases hx : editOk idx = true <;>
      simp [overwriteLoop, ih (idx + 1), List.enumFrom_cons, List.filter_cons, hx]

/-- C5: `handle_overwrite_action` visits every item regardless of
individual failures; the result list pairs each item with its outcome —
content replaced on success, the item untouched (every field) on failure —
and the success/fail counters partition the batch; concretely, with item
A's edit succeeding and item B's failing, the result is `(1, 1)`, A's
content is the replacement text, and B is unchanged. -/
theorem overwrite_per_item_accounting :
    (∀ (editOk : Nat → Bool) (items : List UnifiedItem) (text : String),
      handle_overwrite_action editOk items text =
        (items.enum.map (fun p => if editOk p.1 then { p.2 with content := text } else p.2),
         (items.enum.filter (fun p => editOk p.1)).length,
         (items.enum.filter (fun p => !editOk p.1)).length))
    ∧ (∀ (editOk : Nat → Bool) (items : List UnifiedItem) (text : String),
      (handle_overwrite_action editOk items text).2.1 +
        (handle_overwrite_action editOk items text).2.2 = items.length)
    ∧ handle_overwrite_action c5editOk [c5itemA, c5itemB] "replacement" =
        ([{ c5itemA with content := "replacement" }, c5itemB], 1, 1) := by
  refine ⟨?_, ?_, ?_⟩
  · intro editOk items text
    exact overwriteLoop_eq editOk text items 0
  · intro editOk items text
    rw [show handle_overwrite_action editOk items text = overwriteLoop editOk text items 0
      from rfl, overwriteLoop_eq editOk text items 0]
    have h := length_filter_partition (fun p : Nat × UnifiedItem => editOk p.1)
      (List.enumFrom 0 items)
    simpa [List.enum] using h
  · rfl

/-- C6: with both score bounds configured, the post filter passes exactly
when `min ≤ score` (inclusive) and `score < max` (exclusive); the concrete
three-post batch with scores `[5, 12, 20]` under `min-score = 10` yields
exactly the items scoring 12 and 20, and after the caller's sort the
output is ordered newest-first by `created_utc` (a property
`sortItemsDesc` guarantees for every list). -/
theorem score_filter_and_sort :
    (∀ (m M : Int) (post : RawPost),
      postFilter none none (some m) (some M) none none post =
        (decide ((m : Rat) ≤ post.ups) && decide (post.ups < (M : Rat))))
    ∧ resultItems
        (fetch_user_items c6src true false none none (some 10) none none none none 0) =
        [normalizePost c6postB, normalizePost c6postC]
    ∧ (normalizePost c6postB).upvotes = 12 ∧ (normalizePost c6postC).upvotes = 20
    ∧ sortItemsDesc
        (resultItems
          (fetch_user_items c6src true false none none (some 10) none none none none 0)) =
        [normalizePost c6postC, normalizePost c6postB]
    ∧ (∀ l : List UnifiedItem, List.Sorted itemNewerEq (sortItemsDesc l)) := by
  refine ⟨?_, by decide, by decide, by decide, by decide, ?_⟩
  · intro m M post
    simp [postFilter, postIncludeMatch, postExcludeMatch, postScoreMatch,
      postMaxScoreMatch, minAgeMatch, maxAgeMatch]
  · intro l
    exact List.sorted_insertionSort itemNewerEq l

/-- Replacing in the empty string yields the empty string at any fuel. -/
theorem rustReplaceAux_nil (pat repl : List Char) (fuel : Nat) :
    rustReplaceAux pat repl fuel [] = [] := by
  cases fuel <;> rfl

/-- With enough fuel, single-character `str::replace` is the one-pass
per-character scanner. -/
theorem rustReplaceAux_single (p : Char) (repl : List Char) :
    ∀ (fuel : Nat) (s : List Char), s.length ≤ fuel →
      rustReplaceAux [p] repl fuel s = repChar p repl s := by
  intro fuel
  induction fuel with
  | zero =>
    intro s hs
    have : s = [] := List.length_eq_zero.mp (Nat.le_zero.mp hs)
    subst this
    rfl
  | succ n ih =>
    intro s hs
    cases s with
    | nil => rfl
    | cons c rest =>
      have hr : rest.length ≤ n := by
        simpa using Nat.lt_succ_iff.mp (Nat.lt_of_lt_of_le (Nat.lt_succ_self _) hs)
      by_cases hc : c = p
      · subst hc
        simp [rustReplaceAux, repChar, List.isPrefixOf, ih rest hr]
      · have : (p == c) = false := by
          simp [Ne.symm hc]
        simp [rustReplaceAux, repChar, List.isPrefixOf, this, hc, ih rest hr]

/-- With enough fuel, the `\r\n → \n` `str::replace` is the one-pass
pair scanner `repCRLFn`. -/
theorem rustReplaceAux_crlf :
    ∀ (fuel : Nat) (s : List Char), s.length ≤ fuel →
      rustReplaceAux ['\r', '\n'] ['\\', 'n'] fuel s = repCRLFn s := by
  intro fuel
  induction fuel with
  | zero =>
    intro s hs
    have : s = [] := List.length_eq_zero.mp (Nat.le_zero.mp hs)
    subst this
    rfl
  | succ n ih =>
    intro s hs
    match s with
    | [] => rfl
    | [c] =>
      simp [rustReplaceAux, repCRLFn, List.isPrefixOf, rustReplaceAux_nil]
    | c1 :: c2 :: rest =>
      have hlen : rest.length + 2 ≤ n + 1 := by simpa using hs
      by_cases h12 : c1 = '\r' ∧ c2 = '\n'
      · rcases h12 with ⟨h1, h2⟩
        subst h1
        subst h2
        have hr : rest.length ≤ n := by omega
        simp [rustReplaceAux, repCRLFn, List.isPrefixOf, ih rest hr]
      · have hpf : (['\r', '\n'].isPrefixOf (c1 :: c2 :: rest)) = false := by
          rcases Decidable.not_and_iff_or_not.mp h12 with h1 | h2
          · simp [List.isPrefixOf, Ne.symm h1]
          · simp [List.isPrefixOf, Ne.symm h2]
        have hr : (c2 :: rest).length ≤ n := by simp; omega
        rw [show rustReplaceAux ['\r', '\n'] ['\\', 'n'] (n + 1) (c1 :: c2 :: rest) =
          (if ['\r', '\n'].isPrefixOf (c1 :: c2 :: rest) then
            ['\\', 'n'] ++ rustReplaceAux ['\r', '\n'] ['\\', 'n'] n
              (List.drop 2 (c1 :: c2 :: rest))
          else c1 :: rustReplaceAux ['\r', '\n'] ['\\', 'n'] n (c2 :: rest)) from rfl]
        simp only [hpf, Bool.false_eq_true, if_false]
        rw [ih (c2 :: rest) hr, repCRLFn, if_neg h12]

/-- The per-character scanner distributes over concatenation. -/
theorem repChar_append (p : Char) (repl : List Char) :
    ∀ a b : List Char, repChar p repl (a ++ b) = repChar p repl a ++ repChar p repl b := by
  intro a b
  induction a with
  | nil => rfl
  | cons c rest ih => simp [repChar, ih]

/-- The three single-character passes act on one character exactly as the
specification's per-character escape. -/
theorem chainSingle (c : Char) :
    repChar '"' ['"', '"'] (repChar '\r' ['\\', 'n'] (repChar '\n' ['\\', 'n'] [c])) =
      escBase c := by
  by_cases h1 : c = '\n'
  · subst h1; rfl
  by_cases h2 : c = '\r'
  · subst h2; rfl
  by_cases h3 : c = '"'
  · subst h3; rfl
  simp [repChar, escBase, h1, h2, h3]

/-- The composition of the four replacement passes is the specification's
one-pass scanner. -/
theorem chain_eq_escSpec :
    ∀ s : List Char,
      repChar '"' ['"', '"'] (repChar '\r' ['\\', 'n']
        (repChar '\n' ['\\', 'n'] (repCRLFn s))) = escSpecChars s := by
  intro s
  induction s using repCRLFn.induct with
  | case1 => rfl
  | case2 c => exact chainSingle c
  | case3 c1 c2 rest h ih =>
    rw [repCRLFn, if_pos h, escSpecChars, if_pos h]
    rcases h with ⟨h1, h2⟩
    show repChar '"' ['"', '"'] (repChar '\r' ['\\', 'n']
      (repChar '\n' ['\\', 'n'] (['\\', 'n'] ++ repCRLFn rest))) = _
    rw [repChar_append, repChar_append, repChar_append, ih]
    rfl
  | case4 c1 c2 rest h ih =>
    rw [repCRLFn, if_neg h, escSpecChars, if_neg h]
    show repChar '"' ['"', '"'] (repChar '\r' ['\\', 'n']
      (repChar '\n' ['\\', 'n'] ([c1] ++ repCRLFn (c2 :: rest)))) = _
    rw [repChar_append, repChar_append, repChar_append, ih, chainSingle]

/-- C7: for every input string, `escape_csv_field` (as used on the
console-rendering path) replaces each line-ending variant (`\r\n`, `\n`,
`\r`) with the literal two-character sequence backslash-n and doubles
every embedded double quote — it equals the specification scanner
`escSpecChars` — and concretely the string `a<CR><LF>b"c` escapes to
`a\nb""c`. -/
theorem escape_console_field_spec :
    (∀ s : String, escape_csv_field s = String.mk (escSpecChars s.data))
    ∧ escape_csv_field "a\r\nb\"c" = "a\\nb\"\"c" := by
  constructor
  · intro s
    simp only [escape_csv_field, rustReplace]
    rw [rustReplaceAux_crlf _ _ le_rfl, rustReplaceAux_single _ _ _ _ le_rfl,
      rustReplaceAux_single _ _ _ _ le_rfl, rustReplaceAux_single _ _ _ _ le_rfl,
      chain_eq_escSpec]
  · rfl

/-- Folding the per-item record writes over any writer appends exactly the
concatenated body. -/
theorem csv_foldl_buffer (items : List UnifiedItem) :
    ∀ w : CsvWriter,
      (items.foldl (fun w item => csvWriteRecord w (csvRowFields item)) w).buffer =
        w.buffer ++ csvBody items := by
  induction items with
  | nil => intro w; simp [csvBody]
  | cons x xs ih =>
    intro w
    rw [List.foldl_cons, ih, csvBody]
    simp [csvWriteRecord, String.append_assoc]

/-- C8: exporting the same unified record sequence to two files produces
byte-identical CSV content, and that content is the header record followed
by one serialized record per item (with the `r/` subreddit rendering and
absolute permalink URL of `csvRowFields`) — a deterministic function of
the item sequence alone. -/
theorem csv_export_deterministic :
    (∀ (items : List UnifiedItem) (p q : String),
      (handle_csv_export items p).buffer = (handle_csv_export items q).buffer)
    ∧ (∀ (items : List UnifiedItem) (p : String),
      (handle_csv_export items p).buffer = csvRecord csvHeaderFields ++ csvBody items) := by
  have h : ∀ (items : List UnifiedItem) (p : String),
      (handle_csv_export items p).buffer = csvRecord csvHeaderFields ++ csvBody items := by
    intro items p
    show (items.foldl (fun w item => csvWriteRecord w (csvRowFields item))
      (csvWriteRecord (csvWriterFromPath p) csvHeaderFields)).buffer = _
    rw [csv_foldl_buffer]
    simp [csvWriteRecord, csvWriterFromPath]
  exact ⟨fun items p q => (h items p).trans (h items q).symm, h⟩

/-- C9: with an exclude-subreddit list configured, every comment whose raw
subreddit field is absent fails the comment filter (and hence is dropped
from the filtered result), whatever the other criteria are; posts, by
contrast, are excluded exactly when their lowercased subreddit is in the
list; and a parsed exclude list never contains the empty string (so the
dropped comments' normalization to the empty subreddit matches no
entry). -/
theorem exclude_absent_subreddit_comment :
    (∀ (inc : Option (List String)) (excl : List String) (fs fms : Option Int)
        (ma mb : Option Rat) (fpt : Option String) (c : RawComment),
      commentFilter inc (some excl) fs fms ma mb fpt { c with subreddit := none } = false)
    ∧ (∀ (comments : List RawComment) (inc : Option (List String)) (excl : List String)
        (fs fms : Option Int) (ma mb : Option Rat) (fpt : Option String),
      (comments.filter (commentFilter inc (some excl) fs fms ma mb fpt)).all
        (fun c => c.subreddit.isSome) = true)
    ∧ (∀ (excl : List String) (post : RawPost),
      postFilter none (some excl) none none none none post =
        !excl.any (fun sr => sr == strToLower post.subreddit))
    ∧ (∀ s : String, (parseSubredditList s).contains "" = false) := by
  have hfalse : ∀ (inc : Option (List String)) (excl : List String) (fs fms : Option Int)
      (ma mb : Option Rat) (fpt : Option String) (c : RawComment),
      commentFilter inc (some excl) fs fms ma mb fpt { c with subreddit := none } = false := by
    intro inc excl fs fms ma mb fpt c
    simp [commentFilter, commentExcludeMatch]
  refine ⟨hfalse, ?_, ?_, ?_⟩
  · intro comments inc excl fs fms ma mb fpt
    rw [List.all_eq_true]
    intro c hc
    have hmem := List.mem_filter.mp hc
    rcases c with ⟨n, sub, lt, b, sc, pl, cr⟩
    cases sub with
    | some s => rfl
    | none =>
      exfalso
      have h1 : commentFilter inc (some excl) fs fms ma mb fpt
          ⟨n, none, lt, b, sc, pl, cr⟩ = false :=
        hfalse inc excl fs fms ma mb fpt ⟨n, none, lt, b, sc, pl, cr⟩
      exact absurd hmem.2 (by simp [h1])
  · intro excl post
    simp [postFilter, postIncludeMatch, postExcludeMatch, postScoreMatch,
      postMaxScoreMatch, minAgeMatch, maxAgeMatch]
  · intro s
    have hnm : "" ∉ parseSubredditList s := by
      simp [parseSubredditList, List.mem_filter]
    simpa using hnm

/-- C10: a comment whose raw score field is absent passes both the
min-score and max-score predicates whatever the configured bounds, passes
the whole filter when only score bounds are configured, and is normalized
with `upvotes = 0`; concretely, with `min-score = 5` the pipeline's output
contains the score-less comment with `upvotes = 0`. -/
theorem absent_score_passes_filters :
    (∀ fs : Option Int, commentScoreMatch fs none = true)
    ∧ (∀ fms : Option Int, commentMaxScoreMatch fms none = true)
    ∧ (∀ (fs fms : Option Int) (c : RawComment),
      commentFilter none none fs fms none none none { c with score := none } = true)
    ∧ (∀ c : RawComment, (normalizeComment { c with score := none }).upvotes = 0)
    ∧ resultItems
        (fetch_user_items c10src false true none none (some 5) none none none none 1) =
        [normalizeComment c10comment]
    ∧ (normalizeComment c10comment).upvotes = 0 := by
  refine ⟨?_, ?_, ?_, ?_, by decide, by decide⟩
  · intro fs; cases fs <;> rfl
  · intro fms; cases fms <;> rfl
  · intro fs fms c
    cases fs <;> cases fms <;>
      simp [commentFilter, commentIncludeMatch, commentExcludeMatch, commentScoreMatch,
        commentMaxScoreMatch, commentMinAgeMatch, commentMaxAgeMatch, commentPostTitleMatch]
  · intro c; rfl
